import Mathlib

/-!
# Verification of the codefuse agent runtime core

A shallow embedding of the core of the `codefuse` coding-assistant runtime:
the workspace file tools (`read_file`, `write_file`, `edit_file`) with their
read-before-edit tracking, the context engine's message ledger and
invalid-tool-call sanitizer, the tool executor's dispatch and
success-recording, the LLM retry wrapper, and the agent loop's iteration
control.  Pure functions of the source are translated into Lean functions;
OS- and library-level primitives (path resolution, JSON parsing and
pretty-printing) are taken as explicit function parameters, and the theorems
quantify over them.
-/

namespace Codefuse

/-! ## Python string primitives

Lean models of the exact Python `str` operations the tools use.
Strings are handled through their character lists.
-/

/-- Python `str.expandtabs()` with the default tab size of 8: each tab is
replaced by enough spaces to reach the next multiple-of-8 column; newline and
carriage return reset the column counter. -/
def expandtabsGo : List Char → Nat → List Char
  | [], _ => []
  | c :: rest, col =>
    if c = '\t' then
      let pad := 8 - col % 8
      List.replicate pad ' ' ++ expandtabsGo rest (col + pad)
    else if c = '\n' ∨ c = '\r' then
      c :: expandtabsGo rest 0
    else
      c :: expandtabsGo rest (col + 1)

/-- Python `s.expandtabs()` on strings. -/
def pyExpandtabs (s : String) : String :=
  String.mk (expandtabsGo s.data 0)

/-- Python `s.count(sub)` on character lists: number of non-overlapping
occurrences; the empty pattern occurs `length + 1` times. -/
def countSubList (s pat : List Char) : Nat :=
  if h : pat = [] then s.length + 1
  else
    match s with
    | [] => 0
    | c :: rest =>
      if pat.isPrefixOf (c :: rest) then
        1 + countSubList ((c :: rest).drop pat.length) pat
      else
        countSubList rest pat
termination_by s.length
decreasing_by
  · simp only [List.length_drop, List.length_cons]
    have : 0 < pat.length := List.length_pos.mpr h
    omega
  · simp

/-- Python `s.count(sub)` on strings. -/
def pyCount (s pat : String) : Nat :=
  countSubList s.data pat.data

/-- Python `s.replace(old, new)` / `s.replace(old, new, count)` on character
lists.  `limit = none` replaces every non-overlapping occurrence, `limit =
some k` at most `k`.  An empty `old` inserts `new` before every character and
once at the end, exactly as CPython does. -/
def replaceList (s old new : List Char) (limit : Option Nat) : List Char :=
  if limit = some 0 then s
  else if h : old = [] then
    new ++
      match s with
      | [] => []
      | c :: rest => c :: replaceList rest old new (limit.map (· - 1))
  else
    match s with
    | [] => []
    | c :: rest =>
      if old.isPrefixOf (c :: rest) then
        new ++ replaceList ((c :: rest).drop old.length) old new (limit.map (· - 1))
      else
        c :: replaceList rest old new limit
termination_by s.length
decreasing_by
  · simp
  · simp only [List.length_drop, List.length_cons]
    have : 0 < old.length := List.length_pos.mpr h
    omega
  · simp

/-- Python `s.replace(old, new)` (all occurrences) or
`s.replace(old, new, k)` on strings. -/
def pyReplace (s old new : String) (limit : Option Nat) : String :=
  String.mk (replaceList s.data old.data new.data limit)

/-- Python `sub in s` substring containment. -/
def strContains (s sub : String) : Bool :=
  decide (sub.data <:+: s.data)

/-- `String.isPrefixOf` through character lists (used for the `"Error:"`
result-prefix checks of the spec). -/
def strStartsWith (s pre : String) : Bool :=
  pre.data.isPrefixOf s.data

/-- The prefix of `s` before the first occurrence of the non-empty pattern
`old` — Python `s.split(old)[0]`. -/
def prefixBeforeList (s old : List Char) : List Char :=
  match s with
  | [] => []
  | c :: rest =>
    if old.isPrefixOf (c :: rest) then []
    else c :: prefixBeforeList rest old

/-- Python `s.split(old)[0]` for a non-empty separator. -/
def pyPrefixBefore (s old : String) : String :=
  String.mk (prefixBeforeList s.data old.data)

/-- Number of `'\n'` characters in a string (Python `s.count(chr(10))`). -/
def countNewlines (s : String) : Nat :=
  s.data.countP (· = '\n')

/-- Python `s.splitlines(keepends=True)`, modelling only `'\n'` as a line
boundary (the source's other, rarer boundary characters — `\r`, `\v`, … —
are not modelled): maximal chunks each ending in `'\n'`, plus a final
unterminated chunk when present; the empty string yields no lines. -/
def splitlinesKeepsGo : List Char → List Char → List (List Char)
  | [], acc => if acc = [] then [] else [acc.reverse]
  | c :: rest, acc =>
    if c = '\n' then (acc.reverse ++ ['\n']) :: splitlinesKeepsGo rest []
    else splitlinesKeepsGo rest (c :: acc)

/-- Python `s.splitlines(keepends=True)` on strings (newline-only model). -/
def pySplitlinesKeepends (s : String) : List String :=
  (splitlinesKeepsGo s.data []).map String.mk

/-- Right-align a string in a field of `width` characters by padding with
spaces on the left (Python `f"{n:6d}"`-style alignment). -/
def padLeftSpaces (width : Nat) (s : String) : String :=
  String.mk (List.replicate (width - s.length) ' ') ++ s

/-- Left-pad a decimal rendering with zeros to at least `width` digits
(Python `f"{n:03d}"` for non-negative `n`). -/
def padZeros (width : Nat) (n : Nat) : String :=
  let s := toString n
  String.mk (List.replicate (width - s.length) '0') ++ s

/-- Python `str(x)` for an `Optional[int]`: `None` renders as `"None"`. -/
def optIntRepr : Option Int → String
  | none => "None"
  | some n => toString n

/-- Python `str` of a list of ints, e.g. `"[3, 7]"`. -/
def intListRepr (l : List Nat) : String :=
  "[" ++ String.intercalate ", " (l.map toString) ++ "]"

/-- Insert thousands separators into a decimal rendering
(Python `f"{n:,}"`). -/
def groupDigitsGo : List Char → List Char
  | c₁ :: c₂ :: c₃ :: c₄ :: rest => c₁ :: c₂ :: c₃ :: ',' :: groupDigitsGo (c₄ :: rest)
  | l => l

/-- Python `f"{n:,}"` for a natural number: decimal digits grouped by
thousands with commas, counting from the right. -/
def pyComma (n : Nat) : String :=
  String.mk (groupDigitsGo (toString n).data.reverse).reverse

/-! ## Tool results and the filesystem tool mixin

From `codefuse/tools/base.py` and `codefuse/tools/builtin/filesystem_base.py`.
Path resolution, absoluteness and workspace containment are OS/path-library
primitives; they enter the model as the explicit `PathEnv` parameter.
The filesystem is a map from resolved paths to entries.
-/

/-- `ToolResult` of `codefuse/tools/base.py` after `__post_init__`: the
display text has already defaulted to the content. -/
structure ToolResult where
  content : String
  display : String
deriving DecidableEq, Repr

/-- `ToolResult(content=c)` with the `__post_init__` display default. -/
def mkToolResult (content : String) (display : Option String) : ToolResult :=
  ⟨content, display.getD content⟩

/-- A result whose content carries the `"Error:"` prefix — the shape every
tool error produced by the filesystem mixin has. -/
def isErrorResult (r : ToolResult) : Bool :=
  strStartsWith r.content "Error:"

/-- The ambient path primitives of one session: the workspace root (as the
string interpolated into error messages), `Path.is_absolute`,
`Path.resolve`, and the `relative_to`-based workspace containment check of
`FileSystemToolMixin._check_within_workspace` applied to resolved paths. -/
structure PathEnv where
  workspaceRoot : String
  isAbsolute : String → Bool
  resolve : String → String
  inWorkspace : String → Bool

/-- A filesystem entry: a regular file with (decoded) text content, or a
directory. -/
inductive FsEntry where
  | file (content : String)
  | directory
deriving DecidableEq

/-- The filesystem: resolved path → entry. -/
abbrev FS := String → Option FsEntry

/-- `FileSystemToolMixin._create_error_result`. -/
def errorResult (errMsg displayMsg : String) : ToolResult :=
  ⟨"Error: " ++ errMsg, "❌ " ++ displayMsg⟩

/-- `FileSystemToolMixin._check_absolute_path`. -/
def checkAbsolutePath (env : PathEnv) (path : String) : Option String :=
  if env.isAbsolute path then none
  else some ("Path must be absolute, but got relative path: " ++ path)

/-- `FileSystemToolMixin._check_within_workspace` (on a resolved path). -/
def checkWithinWorkspace (env : PathEnv) (filePath : String) : Option String :=
  if env.inWorkspace filePath then none
  else some ("Path must be within workspace root (" ++ env.workspaceRoot ++
    "), but got: " ++ filePath)

/-- `FileSystemToolMixin._estimate_tokens`: characters divided by 4. -/
def estimateTokens (content : String) : Nat :=
  content.length / 4

/-- `MAX_TOKENS` of `filesystem_base.py`. -/
def MAX_TOKENS : Nat := 25000

/-- `MAX_FILE_SIZE_BYTES` of `filesystem_base.py` (256 KiB). -/
def MAX_FILE_SIZE_BYTES : Nat := 256 * 1024

/-- `FileSystemToolMixin._check_token_limit`. -/
def checkTokenLimit (content : String) (maxTokens : Nat) : Option String :=
  let tokenCount := estimateTokens content
  if tokenCount > maxTokens then
    some ("Content (" ++ pyComma tokenCount ++ " tokens) exceeds maximum (" ++
      pyComma maxTokens ++ " tokens). Please reduce the content size.")
  else none

/-- `FileSystemToolMixin._find_occurrence_lines`: the 1-indexed line numbers
at which each (possibly overlapping — the scan advances by one character)
occurrence of `search` starts. -/
def findOccurrenceLines (content search : String) : List Nat :=
  (List.range (content.data.length + 1)).filterMap fun i =>
    if search.data.isPrefixOf (content.data.drop i) then
      some ((content.data.take i).countP (· = '\n') + 1)
    else none

/-- `FileSystemToolMixin._format_with_line_numbers`: each line prefixed with
a 6-character right-aligned line number and `→`; empty content is returned
unchanged. -/
def formatWithLineNumbers (content : String) (startLine : Int) : String :=
  if content = "" then content
  else
    String.intercalate "\n" ((content.splitOn "\n").enum.map fun p =>
      padLeftSpaces 6 (toString (startLine + (p.1 : Int))) ++ "→" ++ p.2)

/-! ## The Read Tracker

From `codefuse/core/read_tracker.py`: a per-session set of resolved absolute
paths.  Both `mark_as_read` and `is_read` re-resolve their argument. -/

/-- The read tracker's state: the set of resolved paths recorded as read. -/
abbrev ReadTracker := List String

/-- `ReadTracker.mark_as_read`. -/
def ReadTracker.markAsRead (env : PathEnv) (tr : ReadTracker) (filePath : String) :
    ReadTracker :=
  env.resolve filePath :: tr

/-- `ReadTracker.is_read`. -/
def ReadTracker.isRead (env : PathEnv) (tr : ReadTracker) (filePath : String) : Bool :=
  tr.contains (env.resolve filePath)

/-! ## `read_file` (`codefuse/tools/builtin/read_file.py`) -/

/-- `DEFAULT_MAX_LINES` of `read_file.py`. -/
def DEFAULT_MAX_LINES : Nat := 1000

/-- The oversize message of `ReadFileTool._check_file_size`.  The source
interpolates the sizes in KB with one decimal digit of float formatting;
that numeric rendering is abstracted here (no claim inspects it). -/
def fileSizeErrorMsg : String :=
  "File size exceeds maximum (256KB). Please use start_line and end_line parameters to read specific portions."

/-- The `<system-reminder>` truncation note appended by `ReadFileTool.execute`
when the default line cap truncated the output. -/
def truncationNote (totalLines : Nat) (actualStart actualEnd : Int) : String :=
  "\n\n<system-reminder>Note: File has " ++ toString totalLines ++
  " total lines, but only showing lines " ++ toString actualStart ++ "-" ++
  toString actualEnd ++ " (default limit: " ++ toString DEFAULT_MAX_LINES ++
  " lines). Use start_line and end_line parameters to read other portions of the file.</system-reminder>"

/-- `ReadFileTool.execute`.  Inputs are the path environment, the (optional)
read tracker, the filesystem, the path argument, and the optional
`start_line`/`end_line` arguments.  Output: the `ToolResult` and the updated
tracker (the tracker is mutated — a path is marked read — only on the
success path).  The encoding fallback of the source always succeeds here
because file contents are modelled as already-decoded text; line splitting
models `'\n'` boundaries only (see `pySplitlinesKeepends`). -/
def ReadFileTool.execute (env : PathEnv) (tracker : Option ReadTracker) (fs : FS)
    (path : String) (startLine endLine : Option Int) :
    ToolResult × Option ReadTracker :=
  match checkAbsolutePath env path with
  | some error => (⟨"Error: " ++ error, "❌ " ++ error⟩, tracker)
  | none =>
  let filePath := env.resolve path
  match checkWithinWorkspace env filePath with
  | some error => (⟨"Error: " ++ error, "❌ Access denied: outside workspace"⟩, tracker)
  | none =>
  match fs filePath with
  | none => (⟨"Error: File not found: " ++ path, "❌ File not found"⟩, tracker)
  | some .directory => (⟨"Error: Path is not a file: " ++ path, "❌ Not a file"⟩, tracker)
  | some (.file fileContent) =>
  if fileContent.utf8ByteSize > MAX_FILE_SIZE_BYTES ∧ startLine = none ∧ endLine = none then
    (⟨"Error: " ++ fileSizeErrorMsg, "❌ File too large (>256KB)"⟩, tracker)
  else
  let lines := pySplitlinesKeepends fileContent
  let startIdx : Int := match startLine with
    | some n => if n ≠ 0 then n - 1 else 0
    | none => 0
  let endIdx0 : Int := match endLine with
    | some n => n
    | none => startIdx + (DEFAULT_MAX_LINES : Int)
  let endIdx := min endIdx0 (lines.length : Int)
  if startIdx < 0 ∨ startIdx ≥ (lines.length : Int) then
    let msg := "Invalid start_line " ++ optIntRepr startLine ++ " (file has " ++
      toString lines.length ++ " lines)"
    (⟨"Error: " ++ msg, "❌ " ++ msg⟩, tracker)
  else if endIdx < startIdx then
    let msg := "Invalid end_line " ++ optIntRepr endLine ++ " (must be >= start_line)"
    (⟨"Error: " ++ msg, "❌ " ++ msg⟩, tracker)
  else
  let selected := (lines.drop startIdx.toNat).take (endIdx - startIdx).toNat
  let content := String.join selected
  let actualStart : Int := match startLine with
    | some n => if n ≠ 0 then n else 1
    | none => 1
  let actualEnd : Int := actualStart + selected.length - 1
  let wasTruncated : Bool := decide (endIdx < (lines.length : Int)) && endLine.isNone
  match checkTokenLimit content MAX_TOKENS with
  | some error => (⟨"Error: " ++ error, "❌ Content too large (>25,000 tokens)"⟩, tracker)
  | none =>
  let formatted := formatWithLineNumbers content actualStart
  let formatted := if wasTruncated then
      formatted ++ truncationNote lines.length actualStart actualEnd
    else formatted
  let lineRange := "lines " ++ toString actualStart ++ "-" ++ toString actualEnd
  let display :=
    if wasTruncated then
      "✓ Read " ++ lineRange ++ " (" ++ toString selected.length ++ "/" ++
        toString lines.length ++ " lines)"
    else
      "✓ Read " ++ lineRange ++ " (" ++ toString selected.length ++ " lines)"
  let tracker' := tracker.map fun tr => ReadTracker.markAsRead env tr filePath
  (⟨formatted, display⟩, tracker')

/-! ## `write_file` (`codefuse/tools/builtin/write_file.py`)

`WriteFileTool` holds no reference to the read tracker; its execute only
touches the filesystem (`mkdir` of parent directories is not observable
through the entries the other tools consult and is not modelled). -/

/-- `WriteFileTool.execute`. -/
def WriteFileTool.execute (env : PathEnv) (fs : FS) (path content : String) :
    ToolResult × FS :=
  match checkAbsolutePath env path with
  | some error => (errorResult error "Path must be absolute", fs)
  | none =>
  let filePath := env.resolve path
  match checkWithinWorkspace env filePath with
  | some error => (errorResult error "Access denied: outside workspace", fs)
  | none =>
  match checkTokenLimit content MAX_TOKENS with
  | some error => (errorResult error "Content too large (>25,000 tokens)", fs)
  | none =>
  let fileExisted := (fs filePath).isSome
  let fs' : FS := fun p => if p = filePath then some (.file content) else fs p
  let lines := countNewlines content + 1
  let chars := content.length
  let action := if fileExisted then "Updated" else "Created"
  let actionLower := if fileExisted then "updated" else "created"
  (⟨"Successfully " ++ actionLower ++ " file: " ++ path ++ " (" ++ toString lines ++
      " lines, " ++ toString chars ++ " characters)",
    "✓ " ++ action ++ " " ++ path ++ " (" ++ toString lines ++ " lines)"⟩, fs')

/-! ## `edit_file` (`codefuse/tools/builtin/edit_file.py`) -/

/-- `CONTEXT_LINES` of `edit_file.py`. -/
def CONTEXT_LINES : Nat := 4

/-- `EditFileTool._generate_edit_snippet`: the edited region with
`CONTEXT_LINES` lines of context, line-numbered; returns the snippet and
its 1-indexed starting line. -/
def generateEditSnippet (content : String) (replacementLine : Nat)
    (newContent : String) : String × Nat :=
  let lines := content.splitOn "\n"
  let numNewLines := countNewlines newContent
  let startLine := replacementLine - CONTEXT_LINES
  let endLine := min lines.length (replacementLine + numNewLines + 1 + CONTEXT_LINES)
  let snippetLines := (lines.drop startLine).take (endLine - startLine)
  let snippetContent := String.intercalate "\n" snippetLines
  (formatWithLineNumbers snippetContent ((startLine : Int) + 1), startLine + 1)

/-- `EditFileTool.execute`.  Inputs mirror the source: the path environment,
the tool's optional read-tracker reference, the filesystem, and the
`file_path`/`old_string`/`new_string`/`replace_all` arguments.  Output: the
`ToolResult` and the possibly-updated filesystem.  When `old_string` expands
to the empty string the source writes the file and then raises `ValueError`
at `file_content.split(old_string)`, caught by the generic handler — that
branch is modelled explicitly (error result, file already written). -/
def EditFileTool.execute (env : PathEnv) (tracker : Option ReadTracker) (fs : FS)
    (filePath oldString newString : String) (replaceAll : Bool) :
    ToolResult × FS :=
  match checkAbsolutePath env filePath with
  | some error => (errorResult error "Path must be absolute", fs)
  | none =>
  let resolvedPath := env.resolve filePath
  match checkWithinWorkspace env resolvedPath with
  | some error => (errorResult error "Access denied: outside workspace", fs)
  | none =>
  match fs resolvedPath with
  | none => (errorResult ("File not found: " ++ filePath) "File not found", fs)
  | some .directory => (errorResult ("Path is not a file: " ++ filePath) "Not a file", fs)
  | some (.file rawContent) =>
  let mustReject := match tracker with
    | some tr => !(ReadTracker.isRead env tr resolvedPath)
    | none => false
  if mustReject then
    (errorResult ("File has not been read yet: " ++ filePath ++
        ". You must use read_file tool at least once before editing.")
      "Must read file before editing", fs)
  else
  let fileContent := pyExpandtabs rawContent
  let oldS := pyExpandtabs oldString
  let newS := pyExpandtabs newString
  if oldS = newS then
    (errorResult "old_string is identical to new_string. No replacement needed."
      "No changes to make", fs)
  else
  let occurrences := pyCount fileContent oldS
  if occurrences = 0 then
    (errorResult ("old_string not found in file. The string to replace does not appear verbatim in " ++
        filePath ++ ". Make sure to match the exact content including whitespace and indentation.")
      "String not found", fs)
  else if occurrences > 1 ∧ replaceAll = false then
    let occurrenceLines := findOccurrenceLines fileContent oldS
    (errorResult ("Multiple occurrences of old_string found in lines " ++
        intListRepr occurrenceLines ++
        ". Please ensure it is unique by providing more context, or set replace_all=True to replace all " ++
        toString occurrences ++ " occurrences.")
      ("Not unique (" ++ toString occurrences ++ " occurrences)"), fs)
  else
  let newFileContent :=
    if replaceAll then pyReplace fileContent oldS newS none
    else pyReplace fileContent oldS newS (some 1)
  let numReplacements := if replaceAll then occurrences else 1
  match checkTokenLimit newFileContent MAX_TOKENS with
  | some error => (errorResult error "Content too large (>25,000 tokens)", fs)
  | none =>
  let fs' : FS := fun p => if p = resolvedPath then some (.file newFileContent) else fs p
  if oldS = "" then
    (⟨"Error: Unexpected error editing file: " ++ filePath, "❌ Error: empty separator"⟩, fs')
  else
  let replacementLine := countNewlines (pyPrefixBefore fileContent oldS)
  let snippetPair := generateEditSnippet newFileContent replacementLine newS
  let snippet := snippetPair.1
  let snippetStartLine := snippetPair.2
  let action := if replaceAll then "all occurrences" else "occurrence"
  let resultContent :=
    "Successfully edited " ++ filePath ++ ". Replaced " ++ toString numReplacements ++
    " " ++ action ++ " of old_string with new_string.\n\nHere\x27s a snippet of the edited file showing the changes (lines " ++
    toString snippetStartLine ++ "-" ++ toString (snippetStartLine + countNewlines snippet) ++
    "):\n" ++ snippet ++
    "\n\nReview the changes and make sure they are as expected. Edit the file again if necessary."
  let resultDisplay := "✓ Edited " ++ filePath ++ " (" ++ toString numReplacements ++
    " replacement" ++ (if numReplacements > 1 then "s" else "") ++ ")"
  (⟨resultContent, resultDisplay⟩, fs')

/-! ## Per-session wiring of the workspace tools

`cli/common.py` creates one `ReadTracker` per session and passes it to
`ReadFileTool` and `EditFileTool`; `WriteFileTool` never receives it.  The
session-level step functions below make that wiring explicit over a combined
state of filesystem plus tracker. -/

/-- The per-session mutable state the workspace tools touch. -/
structure SessionState where
  fs : FS
  tracker : ReadTracker

/-- One `read_file` call within a session. -/
def sessionReadFile (env : PathEnv) (st : SessionState) (path : String)
    (startLine endLine : Option Int) : ToolResult × SessionState :=
  let r := ReadFileTool.execute env (some st.tracker) st.fs path startLine endLine
  (r.1, ⟨st.fs, r.2.getD st.tracker⟩)

/-- One `write_file` call within a session: the tracker is not an input of
`WriteFileTool.execute` and passes through unchanged. -/
def sessionWriteFile (env : PathEnv) (st : SessionState) (path content : String) :
    ToolResult × SessionState :=
  let r := WriteFileTool.execute env st.fs path content
  (r.1, ⟨r.2, st.tracker⟩)

/-- One `edit_file` call within a session. -/
def sessionEditFile (env : PathEnv) (st : SessionState)
    (filePath oldString newString : String) (replaceAll : Bool) :
    ToolResult × SessionState :=
  let r := EditFileTool.execute env (some st.tracker) st.fs filePath oldString newString replaceAll
  (r.1, ⟨r.2, st.tracker⟩)

/-! ## Messages and the Context Engine

From `codefuse/llm/base.py` and `codefuse/core/context_engine.py`.  A tool
call's `function` dict is flattened to its two always-present keys `name`
and `arguments` (the `.get(..., default)` fallbacks of the source never fire
for calls built by the providers).  Message content is modelled as text (the
multimodal block lists are not involved in any behaviour below, and for text
content Python's `content or ""` is the content itself).  The optional
trajectory and snapshot writers are not modelled (`trajectory_writer = None`
configuration); they do not influence the ledger or the prompt counters. -/

/-- `MessageRole` of `codefuse/llm/base.py`. -/
inductive MessageRole where
  | system
  | user
  | assistant
  | tool
deriving DecidableEq, Repr

/-- `ToolCall` of `codefuse/llm/base.py` with `function` flattened. -/
structure ToolCall where
  id : String
  type : String
  name : String
  arguments : String
deriving DecidableEq, Repr

/-- `Message` of `codefuse/llm/base.py` (text content; the `name` field is
never set on the messages handled here). -/
structure Message where
  role : MessageRole
  content : String
  toolCalls : Option (List ToolCall)
  toolCallId : Option String
deriving DecidableEq, Repr

/-- The context engine's mutable session state: the message ledger, the
prompt counter, the current prompt id and the current iteration. -/
structure EngineState where
  messages : List Message
  promptCounter : Nat
  currentPromptId : Option String
  currentIteration : Nat
deriving DecidableEq, Repr

/-- `f"prompt_\x7bcounter:03d\x7d"`: the prompt id for the given counter. -/
def promptIdString (n : Nat) : String :=
  "prompt_" ++ padZeros 3 n

/-- `ContextEngine.add_user_message`: bump the prompt counter, assign a fresh
prompt id, reset the iteration counter, append the user message. -/
def addUserMessage (st : EngineState) (content : String) : EngineState :=
  let counter := st.promptCounter + 1
  { st with
    promptCounter := counter
    currentPromptId := some (promptIdString counter)
    currentIteration := 0
    messages := st.messages ++ [⟨.user, content, none, none⟩] }

/-- `ContextEngine.add_tool_result`: append a tool-role message carrying the
tool call id.  The `success` and `duration` arguments only feed the
(unmodelled) trajectory writer. -/
def addToolResult (st : EngineState) (toolCallId result : String) : EngineState :=
  { st with messages := st.messages ++ [⟨.tool, result, none, some toolCallId⟩] }

/-- The scan condition of `sanitize_invalid_tool_call`: an assistant message
whose (truthy) `tool_calls` contain the offending id. -/
def matchesSanitizeTarget (toolCallId : String) (m : Message) : Bool :=
  decide (m.role = .assistant) &&
    (match m.toolCalls with
     | some tcs => tcs.any fun tc => tc.id == toolCallId
     | none => false)

/-- A tool-role message answering the given tool call id — the shape
`add_tool_result` appends and the ledger invariant speaks about. -/
def isToolMsgWithId (toolCallId : String) (m : Message) : Bool :=
  decide (m.role = .tool) && (m.toolCallId == some toolCallId)

/-- `ContextEngine._format_tool_args`.  `pretty` abstracts
`json.dumps(json.loads(args), indent=2)`: `none` exactly when `json.loads`
raises. -/
def formatToolArgs (pretty : String → Option String) (tc : ToolCall) : String :=
  match pretty tc.arguments with
  | some s => s
  | none => "<Invalid JSON format>"

/-- The tool-call transcription text `sanitize_invalid_tool_call` appends to
the assistant message's content. -/
def toolCallsText (pretty : String → Option String) (toolCallId : String)
    (tcs : List ToolCall) : String :=
  "\n\nTool calls attempted:\n" ++
    String.intercalate "\n" (tcs.map fun tc =>
      "- Tool: " ++ tc.name ++ "\n  ID: " ++ tc.id ++ "\n  Arguments: " ++
        (if tc.id == toolCallId then "<Invalid JSON format>"
         else formatToolArgs pretty tc))

/-- The rewritten assistant message: transcription appended to the content,
`tool_calls` cleared (the source constructs a fresh
`Message(role=ASSISTANT, content=..., tool_calls=None)`). -/
def rewriteSanitized (pretty : String → Option String) (toolCallId : String)
    (m : Message) : Message :=
  ⟨.assistant, m.content ++ toolCallsText pretty toolCallId (m.toolCalls.getD []),
    none, none⟩

/-- Rewrite the most recent (the source scans from the end) message matching
`matchesSanitizeTarget`; `none` when no message matches. -/
def sanitizeRewrite (pretty : String → Option String) (toolCallId : String) :
    List Message → Option (List Message)
  | [] => none
  | m :: rest =>
    match sanitizeRewrite pretty toolCallId rest with
    | some rest' => some (m :: rest')
    | none =>
      if matchesSanitizeTarget toolCallId m then
        some (rewriteSanitized pretty toolCallId m :: rest)
      else none

/-- The correction instruction `sanitize_invalid_tool_call` appends as a
user message. -/
def retryInstructionText (toolName toolCallId errorMessage : String) : String :=
  "Error: The previous tool call had invalid JSON format in the arguments. Tool \x27" ++
  toolName ++ "\x27 (ID: " ++ toolCallId ++ ") failed with error: " ++ errorMessage ++
  "\n\nPlease retry the tool call with VALID JSON format. Ensure that:\n" ++
  "- All strings are properly quoted\n" ++
  "- All special characters are properly escaped\n" ++
  "- The JSON structure is complete and well-formed\n" ++
  "- All brackets and braces are properly matched\n\n" ++
  "Continue with the task using correct JSON format."

/-- `ContextEngine.sanitize_invalid_tool_call`: find the most recent
assistant message carrying the offending tool call id; rewrite it and append
the retry instruction via `add_user_message`; when no message matches, log a
warning and leave the state unchanged. -/
def sanitizeInvalidToolCall (pretty : String → Option String) (st : EngineState)
    (toolCallId toolName errorMessage : String) : EngineState :=
  match sanitizeRewrite pretty toolCallId st.messages with
  | none => st
  | some msgs' =>
    addUserMessage { st with messages := msgs' }
      (retryInstructionText toolName toolCallId errorMessage)

/-! ## The Tool Executor (`codefuse/core/tool_executor.py`)

JSON argument parsing is the library primitive `json.loads`; it enters the
model as the `parseArgs` parameter (error value = the `JSONDecodeError`
text).  Tool execution itself — local `tool.execute(**arguments)` or the
remote HTTP call — enters as the `runTool` parameter, whose `Except` error
is a raised exception's text.  Event `data` dicts are modelled by the fields
the events actually vary in (session id and argument payloads are threaded
unchanged in the source and are omitted). -/

/-- One entry of `ToolExecutionEvent.data` relevant fields; `none` marks a
key the source does not put in that event's dict. -/
structure ToolExecutionEvent where
  etype : String
  toolCallId : String
  toolName : String
  confirmed : Option Bool := none
  result : Option String := none
  display : Option String := none
deriving DecidableEq, Repr

/-- What the executor needs from a registry entry. -/
structure ToolSpec where
  requiresConfirmation : Bool
deriving DecidableEq, Repr

/-- The execution-and-success-recording core of
`ToolExecutor._execute_and_record` (lines 294–352 of the source): run the
tool, derive the recorded success flag, and wrap exceptions.  Success starts
`True`; only the REMOTE branch inspects the result (substring containment of
`"Error:"` in the content or `"❌"` in the display); the local branch leaves
success untouched; a raised exception yields success `False` and the wrapped
error result. -/
def executeAndRecord (remote : Bool) (outcome : Except String ToolResult) :
    Bool × ToolResult :=
  match outcome with
  | .error e => (false, ⟨"Tool execution error: " ++ e, "❌ Error: " ++ e⟩)
  | .ok toolResult =>
    if remote then
      if strContains toolResult.content "Error:" || strContains toolResult.display "❌" then
        (false, toolResult)
      else
        (true, toolResult)
    else
      (true, toolResult)

/-- `ToolExecutor.execute_tool_call`: validate the tool, parse arguments,
gate on confirmation, execute and record.  Returns the yielded events and
the context engine state after the side effects. -/
def executeToolCall {Args : Type}
    (findTool : String → Option ToolSpec)
    (parseArgs : String → Except String Args)
    (pretty : String → Option String)
    (yoloMode : Bool)
    (confirmationCallback : Option (String → String → Args → Bool))
    (remote : Bool)
    (runTool : String → Args → Except String ToolResult)
    (tc : ToolCall) (st : EngineState) :
    List ToolExecutionEvent × EngineState :=
  match findTool tc.name with
  | none =>
    let result := "Error: Tool not found: " ++ tc.name
    ([⟨"tool_done", tc.id, tc.name, some false, some result, none⟩],
     addToolResult st tc.id result)
  | some tool =>
  match parseArgs tc.arguments with
  | .error err =>
    let result := "Error: Invalid tool arguments JSON: " ++ err
    ([⟨"tool_done", tc.id, tc.name, some false, some result, none⟩],
     sanitizeInvalidToolCall pretty st tc.id tc.name err)
  | .ok args =>
  let needsConfirm := tool.requiresConfirmation && !yoloMode
  let confirmEvents : List ToolExecutionEvent :=
    if needsConfirm then [⟨"tool_confirmation_required", tc.id, tc.name, none, none, none⟩]
    else []
  let confirmed :=
    if needsConfirm then
      match confirmationCallback with
      | some cb => cb tc.name tc.id args
      | none => false
    else true
  if confirmed = false then
    let result := "Tool execution rejected by user: " ++ tc.name
    (confirmEvents ++ [⟨"tool_done", tc.id, tc.name, some false, some result, none⟩],
     addToolResult st tc.id result)
  else
    let sr := executeAndRecord remote (runTool tc.name args)
    (confirmEvents ++
      [⟨"tool_start", tc.id, tc.name, none, none, none⟩,
       ⟨"tool_done", tc.id, tc.name, some confirmed, some sr.2.content, some sr.2.display⟩],
     addToolResult st tc.id sr.2.content)

/-! ## LLM retry policy (`codefuse/llm/retry.py`, `codefuse/llm/exceptions.py`)

Delays are exact rationals (`1.0` and `2.0` of the source are exact in
binary floating point, as are their products with header-supplied
`retry_after` values of the tests' magnitudes; no rounding behaviour is
load-bearing).  The wrapped function is a trace `Nat → Except LLMException α`
giving the outcome of each attempt (0-indexed, as the source's loop
variable). -/

/-- The exception taxonomy of `codefuse/llm/exceptions.py`.
`rateLimit` carries the optional `retry_after` seconds. -/
inductive LLMException where
  | timeoutExc
  | rateLimit (retryAfter : Option ℚ)
  | retryableExc
  | apiError
  | authenticationExc
  | contextLengthExceeded
  | invalidRequest
  | modelNotFound
deriving DecidableEq, Repr

/-- `should_retry` / the `retryable_exceptions` tuple of
`retry_on_failure`: `RetryableError` and its subclasses `RateLimitError`
and `TimeoutError`. -/
def LLMException.isRetryable : LLMException → Bool
  | .timeoutExc => true
  | .rateLimit _ => true
  | .retryableExc => true
  | _ => false

/-- The wait time computed before a retry: the `Retry-After` value when the
exception is a `RateLimitError` whose `retry_after` is truthy (Python
`e.retry_after` — `None` and `0.0` are both falsy), else the exponential
backoff `initial_delay * exponential_base ** attempt`. -/
def retryWaitTime (e : LLMException) (attempt : Nat) (initialDelay expBase : ℚ) : ℚ :=
  match e with
  | .rateLimit (some t) => if t ≠ 0 then t else initialDelay * expBase ^ attempt
  | _ => initialDelay * expBase ^ attempt

/-- The attempt loop of `retry_on_failure`'s `wrapper`.  `remaining` is the
number of loop iterations left (`maxRetries - attempt`).  Returns the final
outcome (`none` models Python's implicit `None` fall-through, reachable only
with `max_retries = 0`), the list of sleeps performed, and the number of
attempts made. -/
def retryGo {α : Type} (f : Nat → Except LLMException α) (maxRetries : Nat)
    (initialDelay expBase : ℚ) :
    Nat → Nat → List ℚ → Option (Except LLMException α) × List ℚ × Nat
  | 0, attempt, sleeps => (none, sleeps, attempt)
  | remaining + 1, attempt, sleeps =>
    match f attempt with
    | .ok v => (some (.ok v), sleeps, attempt + 1)
    | .error e =>
      if e.isRetryable then
        if attempt = maxRetries - 1 then (some (.error e), sleeps, attempt + 1)
        else
          retryGo f maxRetries initialDelay expBase remaining (attempt + 1)
            (sleeps ++ [retryWaitTime e attempt initialDelay expBase])
      else (some (.error e), sleeps, attempt + 1)

/-- `retry_on_failure(max_retries, initial_delay, exponential_base)` applied
to an outcome trace: final outcome, sleeps, attempts. -/
def retryOnFailure {α : Type} (f : Nat → Except LLMException α)
    (maxRetries : Nat) (initialDelay expBase : ℚ) :
    Option (Except LLMException α) × List ℚ × Nat :=
  retryGo f maxRetries initialDelay expBase maxRetries 0 []

/-! ## The Agent Loop (`codefuse/core/agent_loop.py`)

The loop's control skeleton, parametric in the context-engine state `σ` and
in the three effectful collaborators it drives: the LLM call of one
iteration (`Except` error = an exception raised inside the iteration's `try`
block), the assistant-message append, and per-tool-call execution.  Events
carry the data fields the claims speak about. -/

/-- `LLMResponse` of `codefuse/llm/base.py` (the fields the loop reads). -/
structure LLMResponse where
  content : String
  toolCalls : List ToolCall
deriving DecidableEq, Repr

/-- `LLMResponse.has_tool_calls`. -/
def LLMResponse.hasToolCalls (r : LLMResponse) : Bool :=
  decide (r.toolCalls.length > 0)

/-- `AgentEvent` of `agent_loop.py`, restricted to the kinds `run` emits and
the data fields the claims inspect. -/
inductive AgentEvent where
  | llmStart (iteration : Nat)
  | llmDone (content : String) (hasToolCalls : Bool)
  | toolEvent (e : ToolExecutionEvent)
  | errorEvent (message : String) (iteration : Nat)
  | agentDone (finalResponse : String) (iterations : Nat)
deriving DecidableEq, Repr

/-- Sequential execution of one response's tool calls, in model order,
forwarding each executor event (`run` step 3g). -/
def execToolCalls {σ : Type} (execTool : σ → ToolCall → σ × List ToolExecutionEvent)
    (st : σ) : List ToolCall → σ × List ToolExecutionEvent
  | [] => (st, [])
  | tc :: rest =>
    let r := execTool st tc
    let r' := execToolCalls execTool r.1 rest
    (r'.1, r.2 ++ r'.2)

/-- The result of the iteration loop: the loop variable `iteration`, the
accumulated `final_response`, the context state, and the events emitted so
far. -/
structure LoopResult (σ : Type) where
  iteration : Nat
  finalResponse : String
  state : σ
  events : List AgentEvent

/-- The `while iteration < max_iterations` loop of `AgentLoop.run`:
increment the iteration, emit `llm_start`, call the LLM (an exception emits
`error` and breaks), emit `llm_done`, append the assistant message; break
with the response content when there are no tool calls, otherwise execute
each tool call and continue.  `remaining` is `maxIterations - iteration`. -/
def agentRunGo {σ : Type} (llm : Nat → σ → Except String LLMResponse)
    (addAssistant : σ → LLMResponse → Nat → σ)
    (execTool : σ → ToolCall → σ × List ToolExecutionEvent) :
    Nat → Nat → σ → List AgentEvent → LoopResult σ
  | 0, iteration, st, events => ⟨iteration, "", st, events⟩
  | remaining + 1, iteration, st, events =>
    let it := iteration + 1
    let events := events ++ [.llmStart it]
    match llm it st with
    | .error e => ⟨it, "", st, events ++ [.errorEvent e it]⟩
    | .ok resp =>
      let events := events ++ [.llmDone resp.content resp.hasToolCalls]
      let st := addAssistant st resp it
      if resp.hasToolCalls then
        let r := execToolCalls execTool st resp.toolCalls
        agentRunGo llm addAssistant execTool remaining it r.1
          (events ++ r.2.map .toolEvent)
      else
        ⟨it, resp.content, st, events⟩

/-- The sentinel `final_response` synthesized at the iteration cap. -/
def maxIterationsSentinel : String :=
  "Maximum iterations reached. The task may not be complete."

/-- The overall result of `AgentLoop.run`: the full event sequence and the
`agent_done` payload. -/
structure RunResult (σ : Type) where
  events : List AgentEvent
  finalResponse : String
  iterations : Nat
  state : σ

/-- `AgentLoop.run` after the user message has been recorded: run the
iteration loop from `iteration = 0`; if it ended with
`iteration >= max_iterations` and a falsy `final_response`, substitute the
sentinel; emit `agent_done` last. -/
def agentRun {σ : Type} (llm : Nat → σ → Except String LLMResponse)
    (addAssistant : σ → LLMResponse → Nat → σ)
    (execTool : σ → ToolCall → σ × List ToolExecutionEvent)
    (maxIterations : Nat) (st : σ) : RunResult σ :=
  let r := agentRunGo llm addAssistant execTool maxIterations 0 st []
  let finalResponse :=
    if r.iteration ≥ maxIterations ∧ r.finalResponse = "" then maxIterationsSentinel
    else r.finalResponse
  ⟨r.events ++ [.agentDone finalResponse r.iteration], finalResponse, r.iteration, r.state⟩

/-! ## Concrete fixtures

Closed instances used by the witness theorems: a trivial path environment
(resolution is the identity, absoluteness and workspace containment are
prefix tests on the literal paths used), a tiny filesystem, and concrete
outcome traces. -/

/-- A concrete path environment over workspace `/ws`. -/
def envA : PathEnv :=
  ⟨"/ws", fun p => p.data.head? = some '/', id,
   fun p => p.data.take 3 = "/ws".data⟩

/-- A concrete filesystem: one two-line file and one empty file. -/
def fsA : FS := fun p =>
  if p = "/ws/a.txt" then some (.file "hello\nworld\n")
  else if p = "/ws/empty.txt" then some (.file "")
  else none

/-- An LLM trace whose every response carries a tool call (for the
iteration-cap witness). -/
def llmAlwaysTools : Nat → Unit → Except String LLMResponse :=
  fun _ _ => .ok ⟨"", [⟨"tc_1", "function", "read_file", "\x7b\x7d"⟩]⟩

/-- An attempt trace that hits a rate limit carrying `retry_after = 0` on
the first attempt and succeeds on the second. -/
def traceRateZero : Nat → Except LLMException Nat :=
  fun k => if k = 0 then .error (.rateLimit (some 0)) else .ok 42

/-- An attempt trace that hits a rate limit carrying `retry_after = 1/10`
on the first attempt and succeeds on the second (scenario 6 of the spec). -/
def traceRateTenth : Nat → Except LLMException Nat :=
  fun k => if k = 0 then .error (.rateLimit (some (1/10))) else .ok 42

/-- A concrete ledger: system, user, then an assistant message carrying one
tool call with malformed JSON arguments. -/
def stA : EngineState :=
  ⟨[⟨.system, "sys", none, none⟩, ⟨.user, "q", none, none⟩,
    ⟨.assistant, "", some [⟨"tc_1", "function", "read_file", "\x7bbroken"⟩], none⟩],
   1, some "prompt_001", 1⟩

/-- A pretty-printer stub treating every argument string as unparseable. -/
def prettyNone : String → Option String := fun _ => none

/-! ## Helper lemmas on result prefixes -/

theorem strStartsWith_append_left (s t pre : String) (h : strStartsWith s pre = true) :
    strStartsWith (s ++ t) pre = true := by
  unfold strStartsWith at h ⊢
  rw [String.data_append]
  rw [List.isPrefixOf_iff_prefix] at h ⊢
  exact h.trans (List.prefix_append _ _)

theorem isErrorResult_errorResult (e d : String) :
    isErrorResult (errorResult e d) = true := by
  unfold isErrorResult errorResult
  exact strStartsWith_append_left "Error: " e "Error:" (by decide)

theorem strStartsWith_append_eq_false (s t pre : String)
    (hlen : pre.length ≤ s.length) (h : strStartsWith s pre = false) :
    strStartsWith (s ++ t) pre = false := by
  unfold strStartsWith at h ⊢
  rw [String.data_append]
  by_contra hcon
  rw [Bool.not_eq_false, List.isPrefixOf_iff_prefix] at hcon
  rw [← Bool.not_eq_true, List.isPrefixOf_iff_prefix] at h
  apply h
  have hlen2 : pre.data.length ≤ s.data.length := hlen
  rw [List.prefix_iff_eq_take] at hcon ⊢
  rwa [List.take_append_of_le_length hlen2] at hcon

/-! ## Claim theorems -/

/-- C9.  For an existing, in-workspace regular file with empty content,
`read_file` with neither `start_line` nor `end_line` returns the
`"Invalid start_line None (file has 0 lines)"` error (the start-index
validity check fails on a 0-line file) and the read tracker is left
unchanged — the path is not marked as read. -/
theorem read_file_empty_file_rejected (env : PathEnv) (tr : ReadTracker) (fs : FS)
    (p : String)
    (habs : env.isAbsolute p = true)
    (hws : env.inWorkspace (env.resolve p) = true)
    (hfile : fs (env.resolve p) = some (.file "")) :
    ReadFileTool.execute env (some tr) fs p none none =
      (⟨"Error: Invalid start_line None (file has 0 lines)",
        "❌ Invalid start_line None (file has 0 lines)"⟩, some tr) := by
  unfold ReadFileTool.execute checkAbsolutePath checkWithinWorkspace
  simp only [habs, hws, hfile, if_true, reduceIte]
  rfl

/-- Witness for C9 at a concrete empty file. -/
theorem read_file_empty_file_rejected_witness :
    envA.isAbsolute "/ws/empty.txt" = true ∧
    envA.inWorkspace (envA.resolve "/ws/empty.txt") = true ∧
    fsA (envA.resolve "/ws/empty.txt") = some (.file "") ∧
    ReadFileTool.execute envA (some []) fsA "/ws/empty.txt" none none =
      (⟨"Error: Invalid start_line None (file has 0 lines)",
        "❌ Invalid start_line None (file has 0 lines)"⟩, some []) :=
  ⟨by decide, by decide, by rfl,
   read_file_empty_file_rejected envA [] fsA "/ws/empty.txt" (by decide) (by decide) (by rfl)⟩

/-- C1.  Within a session (tool wired to the session's read tracker, path
resolution idempotent as `Path.resolve` is): an `edit_file` call on an
existing in-workspace regular file whose resolved path is not in the tracker
is rejected with the read-before-edit message and leaves the filesystem
untouched; and whenever a call's result is not an error, the resolved path
was in the tracker — `edit_file` never reports success on an unread path. -/
theorem edit_file_requires_prior_read
    (env : PathEnv) (tr : ReadTracker) (fs : FS) (p old new : String) (ra : Bool)
    (hidem : env.resolve (env.resolve p) = env.resolve p) :
    (env.isAbsolute p = true → env.inWorkspace (env.resolve p) = true →
      (∀ c, fs (env.resolve p) = some (FsEntry.file c) →
        env.resolve p ∉ tr →
        EditFileTool.execute env (some tr) fs p old new ra =
          (errorResult ("File has not been read yet: " ++ p ++
              ". You must use read_file tool at least once before editing.")
            "Must read file before editing", fs))) ∧
    (isErrorResult (EditFileTool.execute env (some tr) fs p old new ra).1 = false →
      env.resolve p ∈ tr) := by
  have hread_eq : ReadTracker.isRead env tr (env.resolve p) = tr.contains (env.resolve p) := by
    unfold ReadTracker.isRead
    rw [hidem]
  constructor
  · intro habs hws c hc hmem
    have hcontains : tr.contains (env.resolve p) = false := by
      simp [List.contains]
      exact hmem
    simp only [EditFileTool.execute, checkAbsolutePath, checkWithinWorkspace,
      habs, hws, hc, if_true, reduceIte, hread_eq, hcontains]
    rfl
  · intro hsucc
    by_contra hmem
    have hcontains : tr.contains (env.resolve p) = false := by
      simp [List.contains]
      exact hmem
    revert hsucc
    simp only [EditFileTool.execute]
    cases habsm : checkAbsolutePath env p with
    | some error => simp [isErrorResult_errorResult]
    | none =>
      cases hwsm : checkWithinWorkspace env (env.resolve p) with
      | some error => simp [isErrorResult_errorResult]
      | none =>
        cases hfsm : fs (env.resolve p) with
        | none => simp [isErrorResult_errorResult]
        | some entry =>
          cases entry with
          | directory => simp [isErrorResult_errorResult]
          | file rawContent =>
            simp only [hread_eq, hcontains]
            simp [isErrorResult_errorResult]

/-- Witness for C1 at a concrete unread file. -/
theorem edit_file_requires_prior_read_witness :
    envA.resolve (envA.resolve "/ws/a.txt") = envA.resolve "/ws/a.txt" ∧
    envA.isAbsolute "/ws/a.txt" = true ∧
    envA.inWorkspace (envA.resolve "/ws/a.txt") = true ∧
    fsA (envA.resolve "/ws/a.txt") = some (.file "hello\nworld\n") ∧
    envA.resolve "/ws/a.txt" ∉ ([] : ReadTracker) ∧
    EditFileTool.execute envA (some []) fsA "/ws/a.txt" "hello" "hi" false =
      (errorResult
        "File has not been read yet: /ws/a.txt. You must use read_file tool at least once before editing."
        "Must read file before editing", fsA) :=
  ⟨rfl, by decide, by decide, by decide, by decide,
   (edit_file_requires_prior_read envA [] fsA "/ws/a.txt" "hello" "hi" false rfl).1
     (by decide) (by decide) "hello\nworld\n" (by decide) (by decide)⟩

/-- C7.  When `old_string` and `new_string` coincide after tab expansion,
`edit_file` returns an error result and leaves the filesystem unchanged —
it never writes; when the pre-flight checks and the read-tracker gate would
otherwise pass, the error is precisely the identical-strings rejection
(`"No replacement needed"`). -/
theorem edit_file_identical_strings_rejected
    (env : PathEnv) (tracker : Option ReadTracker) (fs : FS)
    (p s₁ s₂ : String) (ra : Bool)
    (hid : pyExpandtabs s₁ = pyExpandtabs s₂) :
    isErrorResult (EditFileTool.execute env tracker fs p s₁ s₂ ra).1 = true ∧
    (EditFileTool.execute env tracker fs p s₁ s₂ ra).2 = fs ∧
    (env.isAbsolute p = true → env.inWorkspace (env.resolve p) = true →
      (∀ c, fs (env.resolve p) = some (FsEntry.file c) →
        (∀ tr, tracker = some tr → ReadTracker.isRead env tr (env.resolve p) = true) →
        (EditFileTool.execute env tracker fs p s₁ s₂ ra).1 =
          errorResult "old_string is identical to new_string. No replacement needed."
            "No changes to make")) := by
  refine ⟨?_, ?_, ?_⟩
  · simp only [EditFileTool.execute]
    cases habsm : checkAbsolutePath env p with
    | some error => exact isErrorResult_errorResult _ _
    | none =>
      cases hwsm : checkWithinWorkspace env (env.resolve p) with
      | some error => exact isErrorResult_errorResult _ _
      | none =>
        cases hfsm : fs (env.resolve p) with
        | none => exact isErrorResult_errorResult _ _
        | some entry =>
          cases entry with
          | directory => exact isErrorResult_errorResult _ _
          | file rawContent =>
            dsimp only
            rw [if_pos hid]
            split
            · exact isErrorResult_errorResult _ _
            · exact isErrorResult_errorResult _ _
  · simp only [EditFileTool.execute]
    cases habsm : checkAbsolutePath env p with
    | some error => rfl
    | none =>
      cases hwsm : checkWithinWorkspace env (env.resolve p) with
      | some error => rfl
      | none =>
        cases hfsm : fs (env.resolve p) with
        | none => rfl
        | some entry =>
          cases entry with
          | directory => rfl
          | file rawContent =>
            dsimp only
            rw [if_pos hid]
            split
            · rfl
            · rfl
  · intro habs hws c hc hread
    simp only [EditFileTool.execute, checkAbsolutePath, checkWithinWorkspace,
      habs, hws, hc, if_true, reduceIte]
    cases tracker with
    | none =>
      rw [if_pos hid]
      rfl
    | some tr =>
      have hr := hread tr rfl
      simp only [hr]
      rw [if_pos hid]
      rfl

/-- Witness for C7 at a concrete identical-strings call. -/
theorem edit_file_identical_strings_rejected_witness :
    pyExpandtabs "hello" = pyExpandtabs "hello" ∧
    isErrorResult (EditFileTool.execute envA (some ["/ws/a.txt"]) fsA
      "/ws/a.txt" "hello" "hello" false).1 = true ∧
    (EditFileTool.execute envA (some ["/ws/a.txt"]) fsA
      "/ws/a.txt" "hello" "hello" false).2 = fsA :=
  ⟨rfl,
   (edit_file_identical_strings_rejected envA (some ["/ws/a.txt"]) fsA
     "/ws/a.txt" "hello" "hello" false rfl).1,
   (edit_file_identical_strings_rejected envA (some ["/ws/a.txt"]) fsA
     "/ws/a.txt" "hello" "hello" false rfl).2.1⟩


/-- Shared helper: `edit_file` rejects with the read-before-edit error when
the pre-flight checks pass but the resolved path is not in the tracker. -/
theorem editFileExecute_unread (env : PathEnv) (tr : ReadTracker) (fs : FS)
    (p old new : String) (ra : Bool)
    (hidem : env.resolve (env.resolve p) = env.resolve p)
    (habs : env.isAbsolute p = true) (hws : env.inWorkspace (env.resolve p) = true)
    (c : String) (hc : fs (env.resolve p) = some (FsEntry.file c))
    (hmem : env.resolve p ∉ tr) :
    EditFileTool.execute env (some tr) fs p old new ra =
      (errorResult ("File has not been read yet: " ++ p ++
          ". You must use read_file tool at least once before editing.")
        "Must read file before editing", fs) := by
  have hread_eq : ReadTracker.isRead env tr (env.resolve p) = tr.contains (env.resolve p) := by
    unfold ReadTracker.isRead
    rw [hidem]
  have hcontains : tr.contains (env.resolve p) = false := by
    simp [List.contains]
    exact hmem
  simp only [EditFileTool.execute, checkAbsolutePath, checkWithinWorkspace,
    habs, hws, hc, if_true, reduceIte, hread_eq, hcontains]
  rfl

/-- Shared helper: a `read_file` call either leaves the tracker untouched (any
error path) or marks exactly the resolved path as read (the success path). -/
theorem readFileExecute_tracker_shape (env : PathEnv) (tracker : Option ReadTracker)
    (fs : FS) (p : String) (sl el : Option Int) :
    (ReadFileTool.execute env tracker fs p sl el).2 = tracker ∨
    (ReadFileTool.execute env tracker fs p sl el).2 =
      tracker.map (fun tr => ReadTracker.markAsRead env tr (env.resolve p)) := by
  simp only [ReadFileTool.execute]
  cases habsm : checkAbsolutePath env p with
  | some error => left; rfl
  | none =>
    cases hwsm : checkWithinWorkspace env (env.resolve p) with
    | some error => left; rfl
    | none =>
      cases hfsm : fs (env.resolve p) with
      | none => left; rfl
      | some entry =>
        cases entry with
        | directory => left; rfl
        | file fileContent =>
          dsimp only
          split
          · left; rfl
          · split
            · left; rfl
            · split
              · left; rfl
              · split
                · left; rfl
                · right; rfl

/-- C8.  `write_file` never mutates the read tracker: after a successful
write of an unread path the session tracker is unchanged, an immediately
following `edit_file` on that path is still rejected with the
read-must-precede-editing error (and changes nothing), and a `read_file`
call either leaves the tracker unchanged or adds exactly the resolved path
(it is the only tool that marks paths read). -/
theorem write_file_does_not_mark_read
    (env : PathEnv) (st : SessionState) (p content old new : String) (ra : Bool)
    (hidem : env.resolve (env.resolve p) = env.resolve p)
    (hunread : env.resolve p ∉ st.tracker)
    (hok : isErrorResult (sessionWriteFile env st p content).1 = false) :
    (sessionWriteFile env st p content).2.tracker = st.tracker ∧
    (sessionEditFile env ((sessionWriteFile env st p content).2) p old new ra).1 =
      errorResult ("File has not been read yet: " ++ p ++
          ". You must use read_file tool at least once before editing.")
        "Must read file before editing" ∧
    (sessionEditFile env ((sessionWriteFile env st p content).2) p old new ra).2 =
      (sessionWriteFile env st p content).2 ∧
    (∀ sl el, (sessionReadFile env st p sl el).2.tracker = st.tracker ∨
       (sessionReadFile env st p sl el).2.tracker = env.resolve p :: st.tracker) := by
  have habs : env.isAbsolute p = true := by
    by_contra h
    rw [Bool.not_eq_true] at h
    rw [show (sessionWriteFile env st p content).1 = (WriteFileTool.execute env st.fs p content).1 from rfl] at hok
    simp only [WriteFileTool.execute, checkAbsolutePath, h] at hok
    simp [isErrorResult_errorResult] at hok
  have hws : env.inWorkspace (env.resolve p) = true := by
    by_contra h
    rw [Bool.not_eq_true] at h
    rw [show (sessionWriteFile env st p content).1 = (WriteFileTool.execute env st.fs p content).1 from rfl] at hok
    simp only [WriteFileTool.execute, checkAbsolutePath, checkWithinWorkspace, habs, h, if_true, reduceIte] at hok
    simp [isErrorResult_errorResult] at hok
  have htok : checkTokenLimit content MAX_TOKENS = none := by
    cases hm : checkTokenLimit content MAX_TOKENS with
    | none => rfl
    | some error =>
      rw [show (sessionWriteFile env st p content).1 = (WriteFileTool.execute env st.fs p content).1 from rfl] at hok
      simp only [WriteFileTool.execute, checkAbsolutePath, checkWithinWorkspace,
        habs, hws, hm, if_true, reduceIte] at hok
      simp [isErrorResult_errorResult] at hok
  have hfs : (sessionWriteFile env st p content).2.fs =
      fun q => if q = env.resolve p then some (.file content) else st.fs q := by
    show (WriteFileTool.execute env st.fs p content).2 = _
    simp only [WriteFileTool.execute, checkAbsolutePath, checkWithinWorkspace,
      habs, hws, htok, if_true, reduceIte]
  have htr : (sessionWriteFile env st p content).2.tracker = st.tracker := rfl
  have hexec := editFileExecute_unread env st.tracker
    (fun q => if q = env.resolve p then some (.file content) else st.fs q)
    p old new ra hidem habs hws content (by simp) hunread
  refine ⟨rfl, ?_, ?_, ?_⟩
  · show (EditFileTool.execute env (some ((sessionWriteFile env st p content).2.tracker))
        ((sessionWriteFile env st p content).2.fs) p old new ra).1 = _
    rw [htr, hfs, hexec]
  · show (⟨(EditFileTool.execute env (some ((sessionWriteFile env st p content).2.tracker))
        ((sessionWriteFile env st p content).2.fs) p old new ra).2,
        (sessionWriteFile env st p content).2.tracker⟩ : SessionState) =
      (sessionWriteFile env st p content).2
    rw [htr, hfs, hexec]
    show (⟨_, st.tracker⟩ : SessionState) = _
    rw [← hfs, ← htr]
  · intro sl el
    rcases readFileExecute_tracker_shape env (some st.tracker) st.fs p sl el with h | h
    · left
      show ((ReadFileTool.execute env (some st.tracker) st.fs p sl el).2.getD st.tracker) = st.tracker
      rw [h]
      rfl
    · right
      show ((ReadFileTool.execute env (some st.tracker) st.fs p sl el).2.getD st.tracker) = _
      rw [h]
      show ReadTracker.markAsRead env st.tracker (env.resolve p) = env.resolve p :: st.tracker
      unfold ReadTracker.markAsRead
      rw [hidem]


/-- Witness for C8: write a fresh file, see the tracker unchanged and the
follow-up edit rejected. -/
theorem write_file_does_not_mark_read_witness :
    envA.resolve (envA.resolve "/ws/new.txt") = envA.resolve "/ws/new.txt" ∧
    envA.resolve "/ws/new.txt" ∉ (⟨fsA, []⟩ : SessionState).tracker ∧
    isErrorResult (sessionWriteFile envA ⟨fsA, []⟩ "/ws/new.txt" "data").1 = false ∧
    (sessionWriteFile envA ⟨fsA, []⟩ "/ws/new.txt" "data").2.tracker = [] ∧
    (sessionEditFile envA ((sessionWriteFile envA ⟨fsA, []⟩ "/ws/new.txt" "data").2)
        "/ws/new.txt" "a" "b" false).1 =
      errorResult
        "File has not been read yet: /ws/new.txt. You must use read_file tool at least once before editing."
        "Must read file before editing" :=
  ⟨rfl, by decide, by decide,
   (write_file_does_not_mark_read envA ⟨fsA, []⟩ "/ws/new.txt" "data" "a" "b" false
     rfl (by decide) (by decide)).1,
   (write_file_does_not_mark_read envA ⟨fsA, []⟩ "/ws/new.txt" "data" "a" "b" false
     rfl (by decide) (by decide)).2.1⟩


/-- C2 counterexample.  A LOCAL tool execution that completes normally with
an `"Error:"`-prefixed content and a `"❌"` display still records
success = true: the success-detection heuristic is applied only in the
remote branch of `_execute_and_record`, so the claim's "for both local and
remote execution" fails at this input. -/
theorem tool_executor_success_flag_counterexample :
    (executeAndRecord false (.ok ⟨"Error: boom", "❌ boom"⟩)).1 = true ∧
    strStartsWith (executeAndRecord false (.ok ⟨"Error: boom", "❌ boom"⟩)).2.content "Error:" = true ∧
    strContains (executeAndRecord false (.ok ⟨"Error: boom", "❌ boom"⟩)).2.display "❌" = true := by
  refine ⟨rfl, by decide, by decide⟩

/-- C2 as amended.  The recorded success flag is false exactly when the tool
raised an exception, or when execution was REMOTE and the returned result
carries `"Error:"` anywhere in its content (substring, not only prefix) or
`"❌"` anywhere in its display; a local execution that returns normally is
recorded successful whatever its result says. -/
theorem tool_executor_success_flag_characterization
    (remote : Bool) (outcome : Except String ToolResult) :
    (executeAndRecord remote outcome).1 = false ↔
      ((∃ e, outcome = .error e) ∨
       (remote = true ∧ ∃ r, outcome = .ok r ∧
         (strContains r.content "Error:" = true ∨ strContains r.display "❌" = true))) := by
  cases outcome with
  | error e =>
    simp [executeAndRecord]
  | ok r =>
    cases remote with
    | false => simp [executeAndRecord]
    | true =>
      by_cases h : strContains r.content "Error:" = true ∨ strContains r.display "❌" = true
      · rcases h with h | h <;> simp [executeAndRecord, h]
      · push_neg at h
        have h1 : strContains r.content "Error:" = false := by
          cases hv : strContains r.content "Error:" with
          | false => rfl
          | true => exact absurd hv h.1
        have h2 : strContains r.display "❌" = false := by
          cases hv : strContains r.display "❌" with
          | false => rfl
          | true => exact absurd hv h.2
        simp [executeAndRecord, h1, h2]

/-- C6 counterexample.  A `RateLimitError` carrying `retry_after = 0` is a
rate-limit error that does carry a `retry_after`, yet — because the source
guards with Python truthiness (`if ... and e.retry_after`) — the wrapper
sleeps the exponential backoff `1 × 2⁰ = 1`, not the carried `0`: the sleep
list is `[1]`, not `[0]`. -/
theorem retry_zero_retry_after_counterexample :
    traceRateZero 0 = .error (.rateLimit (some 0)) ∧
    retryOnFailure traceRateZero 3 1 2 = (some (.ok 42), [1], 2) ∧
    (1 : ℚ) ≠ 0 := by
  refine ⟨rfl, ?_, by norm_num⟩
  simp [retryOnFailure, retryGo, traceRateZero, retryWaitTime, LLMException.isRetryable]

/-- C6 as amended.  With the defaults (3 attempts, initial delay 1 s, base
2): at most 3 attempts are made; exactly one sleep precedes each retry; the
final outcome is the last attempt's outcome (a retryable error on the last
attempt is re-raised, a non-retryable one is raised immediately with no
further attempt and no sleep); every sleep follows a retryable error and
lasts `retry_after` when the exception is a rate limit carrying a NONZERO
`retry_after` (Python truthiness), else `initial_delay × base ^ attempt`;
and a retryable final error implies all 3 attempts were used. -/
theorem retry_policy_characterization {α : Type} (f : Nat → Except LLMException α) :
    (retryOnFailure f 3 1 2).2.2 ≤ 3 ∧
    (retryOnFailure f 3 1 2).2.2 = (retryOnFailure f 3 1 2).2.1.length + 1 ∧
    (retryOnFailure f 3 1 2).1 = some (f ((retryOnFailure f 3 1 2).2.2 - 1)) ∧
    (∀ j (hj : j < (retryOnFailure f 3 1 2).2.1.length),
      ∃ e, f j = .error e ∧ e.isRetryable = true ∧
        (retryOnFailure f 3 1 2).2.1.get ⟨j, hj⟩ = retryWaitTime e j 1 2) ∧
    (∀ e, (retryOnFailure f 3 1 2).1 = some (.error e) → e.isRetryable = true →
      (retryOnFailure f 3 1 2).2.2 = 3) := by
  cases h0 : f 0 with
  | ok v =>
    have hq : retryOnFailure f 3 1 2 = (some (.ok v), [], 1) := by
      simp [retryOnFailure, retryGo, h0]
    rw [hq]
    refine ⟨by norm_num, by simp, by simp [h0], ?_, ?_⟩
    · intro j hj
      simp at hj
    · intro e he
      simp at he
  | error e0 =>
    cases hr0 : e0.isRetryable with
    | false =>
      have hq : retryOnFailure f 3 1 2 = (some (.error e0), [], 1) := by
        simp [retryOnFailure, retryGo, h0, hr0]
      rw [hq]
      refine ⟨by norm_num, by simp, by simp [h0], ?_, ?_⟩
      · intro j hj
        simp at hj
      · intro e he hr
        exfalso
        have heq : e0 = e := Except.error.inj (Option.some.inj he)
        rw [← heq, hr0] at hr
        exact Bool.false_ne_true hr
    | true =>
      cases h1 : f 1 with
      | ok v =>
        have hq : retryOnFailure f 3 1 2 = (some (.ok v), [retryWaitTime e0 0 1 2], 2) := by
          simp [retryOnFailure, retryGo, h0, hr0, h1]
        rw [hq]
        refine ⟨by norm_num, by simp, by simp [h1], ?_, ?_⟩
        · intro j hj
          simp at hj
          subst hj
          exact ⟨e0, h0, hr0, rfl⟩
        · intro e he
          simp at he
      | error e1 =>
        cases hr1 : e1.isRetryable with
        | false =>
          have hq : retryOnFailure f 3 1 2 = (some (.error e1), [retryWaitTime e0 0 1 2], 2) := by
            simp [retryOnFailure, retryGo, h0, hr0, h1, hr1]
          rw [hq]
          refine ⟨by norm_num, by simp, by simp [h1], ?_, ?_⟩
          · intro j hj
            simp at hj
            subst hj
            exact ⟨e0, h0, hr0, rfl⟩
          · intro e he hr
            exfalso
            have heq : e1 = e := Except.error.inj (Option.some.inj he)
            rw [← heq, hr1] at hr
            exact Bool.false_ne_true hr
        | true =>
          cases h2 : f 2 with
          | ok v =>
            have hq : retryOnFailure f 3 1 2 =
                (some (.ok v), [retryWaitTime e0 0 1 2, retryWaitTime e1 1 1 2], 3) := by
              simp [retryOnFailure, retryGo, h0, hr0, h1, hr1, h2]
            rw [hq]
            refine ⟨by norm_num, by simp, by simp [h2], ?_, ?_⟩
            · intro j hj
              simp at hj
              interval_cases j
              · exact ⟨e0, h0, hr0, rfl⟩
              · exact ⟨e1, h1, hr1, rfl⟩
            · intro e he
              simp at he
          | error e2 =>
            have hq : retryOnFailure f 3 1 2 =
                (some (.error e2), [retryWaitTime e0 0 1 2, retryWaitTime e1 1 1 2], 3) := by
              cases hr2 : e2.isRetryable with
              | false => simp [retryOnFailure, retryGo, h0, hr0, h1, hr1, h2, hr2]
              | true => simp [retryOnFailure, retryGo, h0, hr0, h1, hr1, h2, hr2]
            rw [hq]
            refine ⟨by norm_num, by simp, by simp [h2], ?_, ?_⟩
            · intro j hj
              simp at hj
              interval_cases j
              · exact ⟨e0, h0, hr0, rfl⟩
              · exact ⟨e1, h1, hr1, rfl⟩
            · intro e he hr
              rfl

/-- Shared helper: the iteration loop performs at most `remaining` further
iterations above its starting counter. -/
theorem agentRunGo_iteration_le {σ : Type}
    (llm : Nat → σ → Except String LLMResponse)
    (addAssistant : σ → LLMResponse → Nat → σ)
    (execTool : σ → ToolCall → σ × List ToolExecutionEvent) :
    ∀ (remaining iteration : Nat) (st : σ) (evs : List AgentEvent),
      (agentRunGo llm addAssistant execTool remaining iteration st evs).iteration ≤
        iteration + remaining := by
  intro remaining
  induction remaining with
  | zero =>
    intro iteration st evs
    simp [agentRunGo]
  | succ r ih =>
    intro iteration st evs
    simp only [agentRunGo]
    cases hm : llm (iteration + 1) st with
    | error e =>
      show iteration + 1 ≤ iteration + (r + 1)
      omega
    | ok resp =>
      dsimp only
      by_cases hb : resp.hasToolCalls = true
      · rw [if_pos hb]
        refine le_trans (ih (iteration + 1) _ _) ?_
        omega
      · rw [if_neg hb]
        show iteration + 1 ≤ iteration + (r + 1)
        omega

/-- C5.  For every terminating run: the `agent_done` event is emitted last
and carries `iterations ≤ max_iterations`; when the loop exits with
`iteration = max_iterations` and an empty accumulated final response, the
emitted `final_response` is the `"Maximum iterations reached..."` sentinel;
hence at the cap the final response is never empty.  Stated for every
context-state type and every LLM / assistant-append / tool-execution
behaviour the loop may drive. -/
theorem agent_done_iteration_cap {σ : Type}
    (llm : Nat → σ → Except String LLMResponse)
    (addAssistant : σ → LLMResponse → Nat → σ)
    (execTool : σ → ToolCall → σ × List ToolExecutionEvent)
    (maxIterations : Nat) (st : σ) :
    (agentRun llm addAssistant execTool maxIterations st).iterations ≤ maxIterations ∧
    (agentRun llm addAssistant execTool maxIterations st).events.getLast? =
      some (.agentDone (agentRun llm addAssistant execTool maxIterations st).finalResponse
        (agentRun llm addAssistant execTool maxIterations st).iterations) ∧
    ((agentRunGo llm addAssistant execTool maxIterations 0 st []).iteration = maxIterations →
     (agentRunGo llm addAssistant execTool maxIterations 0 st []).finalResponse = "" →
     (agentRun llm addAssistant execTool maxIterations st).finalResponse = maxIterationsSentinel) ∧
    ((agentRun llm addAssistant execTool maxIterations st).iterations = maxIterations →
     (agentRun llm addAssistant execTool maxIterations st).finalResponse ≠ "") := by
  have hle := agentRunGo_iteration_le llm addAssistant execTool maxIterations 0 st []
  refine ⟨by simpa [agentRun] using hle, by simp [agentRun], ?_, ?_⟩
  · intro h1 h2
    simp [agentRun, h1, h2]
  · intro h
    by_cases h2 : (agentRunGo llm addAssistant execTool maxIterations 0 st []).finalResponse = ""
    · have hfin : (agentRun llm addAssistant execTool maxIterations st).finalResponse =
          maxIterationsSentinel := by
        have h1 : (agentRunGo llm addAssistant execTool maxIterations 0 st []).iteration =
            maxIterations := by
          simpa [agentRun] using h
        simp [agentRun, h1, h2]
      rw [hfin]
      decide
    · have hfin : (agentRun llm addAssistant execTool maxIterations st).finalResponse =
          (agentRunGo llm addAssistant execTool maxIterations 0 st []).finalResponse := by
        simp [agentRun, h2]
      rw [hfin]
      exact h2

/-- Witness for C5: a model that always requests tool calls, `max_iterations
= 2` — the loop exits at the cap with an empty accumulated response and
`agent_done` carries the sentinel. -/
theorem agent_done_iteration_cap_witness :
    (agentRunGo llmAlwaysTools (fun (s : Unit) _ _ => s) (fun s _ => (s, [])) 2 0 () []).iteration = 2 ∧
    (agentRunGo llmAlwaysTools (fun (s : Unit) _ _ => s) (fun s _ => (s, [])) 2 0 () []).finalResponse = "" ∧
    (agentRun llmAlwaysTools (fun (s : Unit) _ _ => s) (fun s _ => (s, [])) 2 ()).finalResponse =
      maxIterationsSentinel ∧
    (agentRun llmAlwaysTools (fun (s : Unit) _ _ => s) (fun s _ => (s, [])) 2 ()).iterations ≤ 2 :=
  ⟨rfl, rfl,
   (agent_done_iteration_cap llmAlwaysTools (fun s _ _ => s) (fun s _ => (s, [])) 2 ()).2.2.1 rfl rfl,
   (agent_done_iteration_cap llmAlwaysTools (fun s _ _ => s) (fun s _ => (s, [])) 2 ()).1⟩


/-- Shared helper: the sanitizer scan finds no target exactly when no
message matches. -/
theorem sanitizeRewrite_eq_none_iff (pretty : String → Option String) (tcid : String) :
    ∀ msgs : List Message, sanitizeRewrite pretty tcid msgs = none ↔
      ∀ m ∈ msgs, matchesSanitizeTarget tcid m = false := by
  intro msgs
  induction msgs with
  | nil => simp [sanitizeRewrite]
  | cons m rest ih =>
    simp only [sanitizeRewrite]
    cases hr : sanitizeRewrite pretty tcid rest with
    | some rest2 =>
      constructor
      · intro h
        exact Option.noConfusion h
      · intro h
        have hnone : sanitizeRewrite pretty tcid rest = none :=
          ih.mpr fun x hx => h x (List.mem_cons_of_mem _ hx)
        rw [hr] at hnone
        exact Option.noConfusion hnone
    | none =>
      by_cases hm : matchesSanitizeTarget tcid m = true
      · rw [if_pos hm]
        constructor
        · intro h
          exact Option.noConfusion h
        · intro h
          rw [h m (List.mem_cons_self m rest)] at hm
          exact Bool.noConfusion hm
      · have hm2 : matchesSanitizeTarget tcid m = false := by
          cases hv : matchesSanitizeTarget tcid m with
          | false => rfl
          | true => exact absurd hv hm
        rw [if_neg hm]
        constructor
        · intro _ x hx
          rcases List.mem_cons.mp hx with h1 | h2
          · rw [h1]; exact hm2
          · exact ih.mp hr x h2
        · intro _
          rfl

/-- Shared helper: when the sanitizer scan succeeds, it has rewritten the
LAST matching message: the found index matches, nothing later matches, and
the output is the input with that one element replaced. -/
theorem sanitizeRewrite_eq_some_spec (pretty : String → Option String) (tcid : String) :
    ∀ (msgs out : List Message), sanitizeRewrite pretty tcid msgs = some out →
      ∃ i, ∃ hi : i < msgs.length,
        matchesSanitizeTarget tcid (msgs.get ⟨i, hi⟩) = true ∧
        (∀ j (hj : j < msgs.length), i < j →
          matchesSanitizeTarget tcid (msgs.get ⟨j, hj⟩) = false) ∧
        out = msgs.set i (rewriteSanitized pretty tcid (msgs.get ⟨i, hi⟩)) := by
  intro msgs
  induction msgs with
  | nil =>
    intro out h
    simp [sanitizeRewrite] at h
  | cons m rest ih =>
    intro out h
    simp only [sanitizeRewrite] at h
    cases hr : sanitizeRewrite pretty tcid rest with
    | some rest2 =>
      rw [hr] at h
      injection h with h
      obtain ⟨i, hi, hmatch, hafter, hout⟩ := ih rest2 hr
      refine ⟨i + 1, by simpa using Nat.succ_lt_succ hi, by simpa using hmatch, ?_, ?_⟩
      · intro j hj hij
        cases j with
        | zero => omega
        | succ j2 =>
          have hj2 : j2 < rest.length := by simpa using hj
          have := hafter j2 hj2 (by omega)
          simpa using this
      · rw [← h, hout]
        rfl
    | none =>
      rw [hr] at h
      by_cases hm : matchesSanitizeTarget tcid m = true
      · rw [if_pos hm] at h
        injection h with h
        refine ⟨0, by simp, by simpa using hm, ?_, ?_⟩
        · intro j hj hij
          cases j with
          | zero => omega
          | succ j2 =>
            have hnone := (sanitizeRewrite_eq_none_iff pretty tcid rest).mp hr
            have hj2 : j2 < rest.length := by simpa using hj
            have := hnone (rest.get ⟨j2, hj2⟩) (rest.get_mem _ _)
            simpa using this
        · rw [← h]
          rfl
      · rw [if_neg hm] at h
        exact Option.noConfusion h


/-- A message matching the sanitizer scan is an assistant message. -/
theorem matchesSanitizeTarget_role (tcid : String) (m : Message)
    (hm : matchesSanitizeTarget tcid m = true) : m.role = .assistant := by
  unfold matchesSanitizeTarget at hm
  by_contra hr
  simp [hr] at hm

/-- Neither a sanitizer target nor its rewritten form is a tool-role
message. -/
theorem isToolMsgWithId_sanitized (pretty : String → Option String) (tcid : String)
    (m : Message) (hm : matchesSanitizeTarget tcid m = true) :
    isToolMsgWithId tcid m = false ∧
    isToolMsgWithId tcid (rewriteSanitized pretty tcid m) = false := by
  have hrole := matchesSanitizeTarget_role tcid m hm
  constructor
  · unfold isToolMsgWithId
    rw [hrole]
    simp
  · unfold isToolMsgWithId rewriteSanitized
    simp

/-- Shared helper: rewriting the sanitizer target preserves any filter that
ignores both the target and its rewritten form. -/
theorem sanitizeRewrite_filter (pretty : String → Option String) (tcid : String)
    (p : Message → Bool)
    (hp : ∀ m, matchesSanitizeTarget tcid m = true →
      p m = false ∧ p (rewriteSanitized pretty tcid m) = false) :
    ∀ (msgs out : List Message), sanitizeRewrite pretty tcid msgs = some out →
      out.filter p = msgs.filter p := by
  intro msgs
  induction msgs with
  | nil =>
    intro out h
    simp [sanitizeRewrite] at h
  | cons m rest ih =>
    intro out h
    simp only [sanitizeRewrite] at h
    cases hr : sanitizeRewrite pretty tcid rest with
    | some rest2 =>
      rw [hr] at h
      injection h with h
      rw [← h]
      simp only [List.filter_cons]
      rw [ih rest2 hr]
    | none =>
      rw [hr] at h
      by_cases hm : matchesSanitizeTarget tcid m = true
      · rw [if_pos hm] at h
        injection h with h
        rw [← h]
        simp only [List.filter_cons, (hp m hm).1, (hp m hm).2]
        simp
      · rw [if_neg hm] at h
        exact Option.noConfusion h


/-- Shared helper: `sanitize_invalid_tool_call` neither adds nor removes
tool-role messages answering the offending id. -/
theorem sanitize_preserves_tool_messages (pretty : String → Option String)
    (st : EngineState) (tcid toolName errMsg : String) :
    (sanitizeInvalidToolCall pretty st tcid toolName errMsg).messages.filter
        (isToolMsgWithId tcid) =
      st.messages.filter (isToolMsgWithId tcid) := by
  unfold sanitizeInvalidToolCall
  cases hr : sanitizeRewrite pretty tcid st.messages with
  | none => rfl
  | some out =>
    show ((addUserMessage { st with messages := out } _).messages.filter _) = _
    simp only [addUserMessage]
    rw [List.filter_append]
    rw [sanitizeRewrite_filter pretty tcid (isToolMsgWithId tcid)
      (fun m hm => isToolMsgWithId_sanitized pretty tcid m hm) st.messages out hr]
    simp [isToolMsgWithId]

/-- C3.  For a tool call whose tool exists but whose arguments fail JSON
parsing, `execute_tool_call` yields exactly one event — a `tool_done` with
`confirmed = false` — its resulting state is precisely the sanitizer applied
to the ledger, and no tool-role message carrying that call id is appended:
the tool-message multiset for that id is unchanged (so if none existed
before, none exists after). -/
theorem invalid_arguments_sanitizes_without_tool_message {Args : Type}
    (findTool : String → Option ToolSpec) (parseArgs : String → Except String Args)
    (pretty : String → Option String) (yoloMode : Bool)
    (confirmationCallback : Option (String → String → Args → Bool)) (remote : Bool)
    (runTool : String → Args → Except String ToolResult)
    (tc : ToolCall) (st : EngineState) (spec : ToolSpec) (err : String)
    (hfound : findTool tc.name = some spec)
    (hbad : parseArgs tc.arguments = .error err) :
    (executeToolCall findTool parseArgs pretty yoloMode confirmationCallback remote
        runTool tc st).1 =
      [⟨"tool_done", tc.id, tc.name, some false,
        some ("Error: Invalid tool arguments JSON: " ++ err), none⟩] ∧
    (executeToolCall findTool parseArgs pretty yoloMode confirmationCallback remote
        runTool tc st).2 = sanitizeInvalidToolCall pretty st tc.id tc.name err ∧
    (executeToolCall findTool parseArgs pretty yoloMode confirmationCallback remote
        runTool tc st).2.messages.filter (isToolMsgWithId tc.id) =
      st.messages.filter (isToolMsgWithId tc.id) := by
  refine ⟨?_, ?_, ?_⟩ <;>
    simp only [executeToolCall, hfound, hbad]
  exact sanitize_preserves_tool_messages pretty st tc.id tc.name err


/-- Shared helper: if some message matches, the sanitizer scan succeeds. -/
theorem sanitizeRewrite_isSome_of_mem (pretty : String → Option String) (tcid : String)
    (msgs : List Message) (h : ∃ m ∈ msgs, matchesSanitizeTarget tcid m = true) :
    ∃ out, sanitizeRewrite pretty tcid msgs = some out := by
  cases hr : sanitizeRewrite pretty tcid msgs with
  | some out => exact ⟨out, rfl⟩
  | none =>
    obtain ⟨m, hm, hmt⟩ := h
    have := (sanitizeRewrite_eq_none_iff pretty tcid msgs).mp hr m hm
    rw [hmt] at this
    exact Bool.noConfusion this

/-- C4.  When the offending id occurs in some assistant message,
`sanitize_invalid_tool_call` rewrites the MOST RECENT such message (nothing
after the chosen index matches): its content gains the transcription — which
begins with `"\n\nTool calls attempted:\n"` and lists every tool call of the
message, rendering the offending call's arguments as `<Invalid JSON format>`
and the others pretty-printed when parseable (`toolCallsText`) — its
`tool_calls` field is cleared, and the retry-instruction user message is
appended after it. -/
theorem sanitize_rewrites_most_recent_assistant (pretty : String → Option String)
    (st : EngineState) (tcid toolName errMsg : String)
    (h : ∃ m ∈ st.messages, matchesSanitizeTarget tcid m = true) :
    ∃ i, ∃ hi : i < st.messages.length,
      matchesSanitizeTarget tcid (st.messages.get ⟨i, hi⟩) = true ∧
      (∀ j (hj : j < st.messages.length), i < j →
        matchesSanitizeTarget tcid (st.messages.get ⟨j, hj⟩) = false) ∧
      (sanitizeInvalidToolCall pretty st tcid toolName errMsg).messages =
        st.messages.set i (rewriteSanitized pretty tcid (st.messages.get ⟨i, hi⟩)) ++
          [⟨.user, retryInstructionText toolName tcid errMsg, none, none⟩] ∧
      (rewriteSanitized pretty tcid (st.messages.get ⟨i, hi⟩)).content =
        (st.messages.get ⟨i, hi⟩).content ++
          toolCallsText pretty tcid ((st.messages.get ⟨i, hi⟩).toolCalls.getD []) ∧
      (rewriteSanitized pretty tcid (st.messages.get ⟨i, hi⟩)).toolCalls = none ∧
      strStartsWith (toolCallsText pretty tcid ((st.messages.get ⟨i, hi⟩).toolCalls.getD []))
        "\n\nTool calls attempted:\n" = true := by
  obtain ⟨out, hout⟩ := sanitizeRewrite_isSome_of_mem pretty tcid st.messages h
  obtain ⟨i, hi, hmatch, hafter, hspec⟩ := sanitizeRewrite_eq_some_spec pretty tcid st.messages out hout
  refine ⟨i, hi, hmatch, hafter, ?_, rfl, rfl, ?_⟩
  · unfold sanitizeInvalidToolCall
    rw [hout]
    show (addUserMessage { st with messages := out } _).messages = _
    simp only [addUserMessage]
    rw [hspec]
  · unfold toolCallsText
    exact strStartsWith_append_left _ _ _ (by decide)

/-- C10.  Every sanitization that finds its target ends by appending the
retry instruction via `add_user_message`, which increments the prompt
counter, assigns the fresh `prompt_NNN` id, and resets the iteration counter
to 0 — a new prompt id mid-prompt with no new user query. -/
theorem sanitize_starts_new_prompt (pretty : String → Option String)
    (st : EngineState) (tcid toolName errMsg : String)
    (h : ∃ m ∈ st.messages, matchesSanitizeTarget tcid m = true) :
    (sanitizeInvalidToolCall pretty st tcid toolName errMsg).promptCounter =
      st.promptCounter + 1 ∧
    (sanitizeInvalidToolCall pretty st tcid toolName errMsg).currentPromptId =
      some (promptIdString (st.promptCounter + 1)) ∧
    (sanitizeInvalidToolCall pretty st tcid toolName errMsg).currentIteration = 0 ∧
    (sanitizeInvalidToolCall pretty st tcid toolName errMsg).messages.getLast? =
      some ⟨.user, retryInstructionText toolName tcid errMsg, none, none⟩ := by
  obtain ⟨out, hout⟩ := sanitizeRewrite_isSome_of_mem pretty tcid st.messages h
  unfold sanitizeInvalidToolCall
  rw [hout]
  refine ⟨rfl, rfl, rfl, ?_⟩
  show (out ++ [(⟨.user, retryInstructionText toolName tcid errMsg, none, none⟩ : Message)]).getLast? = _
  rw [List.getLast?_concat]


/-- Witness for C3 at a concrete malformed-JSON tool call. -/
theorem invalid_arguments_sanitizes_without_tool_message_witness :
    ((fun (_ : String) => some (⟨false⟩ : ToolSpec)) "read_file" = some ⟨false⟩) ∧
    ((fun (_ : String) => (Except.error "bad json" : Except String Unit)) "\x7bbroken" =
      .error "bad json") ∧
    (executeToolCall (fun _ => some ⟨false⟩)
      (fun _ => (Except.error "bad json" : Except String Unit)) prettyNone false none false
      (fun _ _ => .ok ⟨"ok", "ok"⟩) ⟨"tc_1", "function", "read_file", "\x7bbroken"⟩ stA).1 =
      [⟨"tool_done", "tc_1", "read_file", some false,
        some "Error: Invalid tool arguments JSON: bad json", none⟩] ∧
    (executeToolCall (fun _ => some ⟨false⟩)
      (fun _ => (Except.error "bad json" : Except String Unit)) prettyNone false none false
      (fun _ _ => .ok ⟨"ok", "ok"⟩) ⟨"tc_1", "function", "read_file", "\x7bbroken"⟩ stA).2.messages.filter
        (isToolMsgWithId "tc_1") =
      stA.messages.filter (isToolMsgWithId "tc_1") :=
  ⟨rfl, rfl,
   (invalid_arguments_sanitizes_without_tool_message (fun _ => some ⟨false⟩)
     (fun _ => (Except.error "bad json" : Except String Unit)) prettyNone false none false
     (fun _ _ => .ok ⟨"ok", "ok"⟩) ⟨"tc_1", "function", "read_file", "\x7bbroken"⟩ stA
     ⟨false⟩ "bad json" rfl rfl).1,
   (invalid_arguments_sanitizes_without_tool_message (fun _ => some ⟨false⟩)
     (fun _ => (Except.error "bad json" : Except String Unit)) prettyNone false none false
     (fun _ _ => .ok ⟨"ok", "ok"⟩) ⟨"tc_1", "function", "read_file", "\x7bbroken"⟩ stA
     ⟨false⟩ "bad json" rfl rfl).2.2⟩

/-- Witness for C4 on the concrete ledger `stA`. -/
theorem sanitize_rewrites_most_recent_assistant_witness :
    (∃ m ∈ stA.messages, matchesSanitizeTarget "tc_1" m = true) ∧
    ∃ i, ∃ hi : i < stA.messages.length,
      matchesSanitizeTarget "tc_1" (stA.messages.get ⟨i, hi⟩) = true ∧
      (∀ j (hj : j < stA.messages.length), i < j →
        matchesSanitizeTarget "tc_1" (stA.messages.get ⟨j, hj⟩) = false) ∧
      (sanitizeInvalidToolCall prettyNone stA "tc_1" "read_file" "boom").messages =
        stA.messages.set i (rewriteSanitized prettyNone "tc_1" (stA.messages.get ⟨i, hi⟩)) ++
          [⟨.user, retryInstructionText "read_file" "tc_1" "boom", none, none⟩] ∧
      (rewriteSanitized prettyNone "tc_1" (stA.messages.get ⟨i, hi⟩)).content =
        (stA.messages.get ⟨i, hi⟩).content ++
          toolCallsText prettyNone "tc_1" ((stA.messages.get ⟨i, hi⟩).toolCalls.getD []) ∧
      (rewriteSanitized prettyNone "tc_1" (stA.messages.get ⟨i, hi⟩)).toolCalls = none ∧
      strStartsWith (toolCallsText prettyNone "tc_1" ((stA.messages.get ⟨i, hi⟩).toolCalls.getD []))
        "\n\nTool calls attempted:\n" = true :=
  ⟨by decide,
   sanitize_rewrites_most_recent_assistant prettyNone stA "tc_1" "read_file" "boom" (by decide)⟩

/-- Witness for C10 on the concrete ledger `stA`. -/
theorem sanitize_starts_new_prompt_witness :
    (∃ m ∈ stA.messages, matchesSanitizeTarget "tc_1" m = true) ∧
    (sanitizeInvalidToolCall prettyNone stA "tc_1" "read_file" "boom").promptCounter = 2 ∧
    (sanitizeInvalidToolCall prettyNone stA "tc_1" "read_file" "boom").currentPromptId =
      some "prompt_002" ∧
    (sanitizeInvalidToolCall prettyNone stA "tc_1" "read_file" "boom").currentIteration = 0 :=
  ⟨by decide,
   (sanitize_starts_new_prompt prettyNone stA "tc_1" "read_file" "boom" (by decide)).1,
   (sanitize_starts_new_prompt prettyNone stA "tc_1" "read_file" "boom" (by decide)).2.1,
   (sanitize_starts_new_prompt prettyNone stA "tc_1" "read_file" "boom" (by decide)).2.2.1⟩


end Codefuse
